import Mathlib

/-!
Verification of the checkout flow and product listing of the Bouquet Bar
storefront.  The definitions below are a shallow embedding of the code in
`client/src/pages/checkout.tsx` (the `Checkout` component: step navigation,
`canProceed` gating, quantity-change guard, order placement, postal-code
validation) and of the `ProductsListing` component (product grid slicing).
Pricing values (`finalAmount`, `subtotal`, …) are computed by the cart
context (`useCart`), whose source is not part of the repository snapshot;
those are modelled from the specification and marked as such.
-/

/-- The four checkout steps, in their fixed order (`CheckoutStep` type in the
source). -/
inductive CheckoutStep where
  | cart
  | shipping
  | payment
  | review
deriving DecidableEq, Repr

/-- The ordered step sequence: `const steps = ['cart', 'shipping', 'payment',
'review']` used by `handleNext` and `handleBack`. -/
def steps : List CheckoutStep :=
  [CheckoutStep.cart, CheckoutStep.shipping, CheckoutStep.payment, CheckoutStep.review]

/-- A cart line item (`CartItem` interface).  The source allows
`price: number | string`; we model the parsed decimal value as a rational. -/
structure CartItem where
  id : String
  name : String
  price : ℚ
  quantity : Nat
deriving DecidableEq, Repr

/-- Address type enumeration (`"Home" | "Office" | "Other"`). -/
inductive AddressType where
  | Home
  | Office
  | Other
deriving DecidableEq, Repr

/-- A shipping address (`Address` interface in checkout.tsx). -/
structure Address where
  fullName : String
  phone : String
  email : String
  addressLine1 : String
  addressLine2 : Option String
  landmark : Option String
  city : String
  state : String
  postalCode : String
  country : String
  addressType : AddressType
  isDefault : Bool
deriving DecidableEq, Repr

/-- A delivery option (`DeliveryOption` interface); `price` is the parsed
decimal value. -/
structure DeliveryOption where
  id : String
  name : String
  price : ℚ
  estimatedDays : Option Nat
deriving DecidableEq, Repr

/-- Payment data held by the cart context; its validity is decided by the
collaborator-defined predicate `validatePaymentData`, which we pass as a
parameter where needed. -/
structure PaymentData where
  selectedMethod : String
deriving DecidableEq, Repr

/-- An applied coupon (`appliedCoupon` slot of the cart context). -/
structure Coupon where
  code : String
  discountAmount : ℚ
deriving DecidableEq, Repr

/-- The checkout session state owned by the `Checkout` component together
with the cart context: cart items, selections, applied coupon, the current
step and the list of completed steps (`useState` slots `currentStep` and
`completedSteps`, initialised to `'cart'` and `[]`). -/
structure CheckoutState where
  items : List CartItem
  shippingAddress : Option Address
  deliveryOption : Option DeliveryOption
  paymentData : PaymentData
  appliedCoupon : Option Coupon
  currentStep : CheckoutStep
  completedSteps : List CheckoutStep
deriving DecidableEq, Repr

/-- `handleStepComplete(step)`: appends `step` to `completedSteps` only when
it is not already present (`if (!completedSteps.includes(step))
setCompletedSteps(prev => [...prev, step])`). -/
def handleStepComplete (step : CheckoutStep) (s : CheckoutState) : CheckoutState :=
  if s.completedSteps.contains step then s
  else { s with completedSteps := s.completedSteps ++ [step] }

/-- `handleNext()`: looks up the index of `currentStep` in `steps`, marks the
current step complete, and moves to `steps[currentIndex + 1]` whenever
`currentIndex < steps.length - 1`.  Note: the source performs no
`canProceed` check inside this handler; only the UI button carries
`disabled={!canProceed()}`. -/
def handleNext (s : CheckoutState) : CheckoutState :=
  let currentIndex := steps.indexOf s.currentStep
  let s1 := handleStepComplete s.currentStep s
  if currentIndex < steps.length - 1 then
    { s1 with currentStep := steps.getD (currentIndex + 1) s1.currentStep }
  else s1

/-- `handleBack()`: moves to `steps[currentIndex - 1]` whenever
`currentIndex > 0`; it never touches `completedSteps`. -/
def handleBack (s : CheckoutState) : CheckoutState :=
  let currentIndex := steps.indexOf s.currentStep
  if 0 < currentIndex then
    { s with currentStep := steps.getD (currentIndex - 1) s.currentStep }
  else s

/-- `canProceed()`: the per-step gating predicate.  `validatePaymentData` is
the collaborator-defined payment validity predicate from the cart context. -/
def canProceed (validatePaymentData : PaymentData → Bool) (s : CheckoutState) : Bool :=
  match s.currentStep with
  | CheckoutStep.cart => decide (0 < s.items.length)
  | CheckoutStep.shipping => s.shippingAddress.isSome && s.deliveryOption.isSome
  | CheckoutStep.payment => validatePaymentData s.paymentData
  | CheckoutStep.review => true

/-- The edit sections reachable from the review screen
(`'cart' | 'address' | 'delivery' | 'payment'`). -/
inductive EditSection where
  | cart
  | address
  | delivery
  | payment
deriving DecidableEq, Repr

/-- The `stepMap` record inside `handleEditSection`. -/
def stepMap : EditSection → CheckoutStep
  | EditSection.cart => CheckoutStep.cart
  | EditSection.address => CheckoutStep.shipping
  | EditSection.delivery => CheckoutStep.shipping
  | EditSection.payment => CheckoutStep.payment

/-- `handleEditSection(section)`: sets `currentStep` to `stepMap[section]`,
touching nothing else. -/
def handleEditSection (sec : EditSection) (s : CheckoutState) : CheckoutState :=
  { s with currentStep := stepMap sec }

/-- `handleQuantityChange(productId, newQuantity)`: returns immediately when
`newQuantity < 1`, otherwise delegates to the cart context's
`updateQuantity`.  The cart context is outside the snapshot, so the delegate
is a parameter. -/
def handleQuantityChange
    (updateQuantity : String → Int → List CartItem → List CartItem)
    (productId : String) (newQuantity : Int)
    (itemsList : List CartItem) : List CartItem :=
  if newQuantity < 1 then itemsList
  else updateQuantity productId newQuantity itemsList

/-- The order payload returned by the order-placement collaborator
(`OrderResponse.order` in checkout.tsx); only the fields the handler reads. -/
structure PlacedOrder where
  id : String
  ordernumber : String
deriving DecidableEq, Repr

/-- `OrderResponse` interface: the result of `placeOrder`. -/
structure OrderResponse where
  success : Bool
  error : Option String
  order : Option PlacedOrder
deriving DecidableEq, Repr

/-- The component-level session around the checkout state: the wouter
location (`setLocation`) and the `isPlacingOrder` flag. -/
structure Session where
  checkout : CheckoutState
  location : String
  isPlacingOrder : Bool
deriving DecidableEq, Repr

/-- `handlePlaceOrder()`: awaits `placeOrder` (the collaborator; its outcome,
a response or a thrown error, is the `result` argument), navigates to the
confirmation page when `result.success && result.order`, and otherwise only
shows a toast; `finally` resets `isPlacingOrder`.  No branch writes the cart,
address, delivery option, payment data, `currentStep` or `completedSteps`. -/
def handlePlaceOrder (result : Except String OrderResponse) (s : Session) : Session :=
  match result with
  | Except.ok r =>
      match r.order with
      | some o =>
          if r.success then
            { s with location := "/order-confirmation/" ++ o.id, isPlacingOrder := false }
          else
            { s with isPlacingOrder := false }
      | none => { s with isPlacingOrder := false }
  | Except.error _ => { s with isPlacingOrder := false }

/-- `true` exactly when `handlePlaceOrder` takes a failure path: the
collaborator threw, or the response has `success` false or no order. -/
def orderFailed (result : Except String OrderResponse) : Bool :=
  match result with
  | Except.ok r => !(r.success && r.order.isSome)
  | Except.error _ => true

/-- `ALLOWED_PIN_CODES`: the fixed allow-list of Bangalore pin codes. -/
def ALLOWED_PIN_CODES : List String :=
  ["560034", "560095", "560030", "560047", "560068", "560076",
   "560102", "560011", "560041", "560069", "560027", "560025",
   "560038", "560071", "560001", "560008", "560005", "560004",
   "560006", "560003", "560066", "560037", "560100", "560064",
   "560072", "560024"]

/-- The `postalcode` rule of `addressFormSchema`: zod `.min(6)` (length at
least 6), `.max(6)` (length at most 6), then `.refine` membership in
`ALLOWED_PIN_CODES`. -/
def postalCodeValid (code : String) : Bool :=
  6 ≤ code.length && code.length ≤ 6 && ALLOWED_PIN_CODES.contains code

/-- A product as listed by `ProductsListing` (fields the grid reads). -/
structure Product where
  id : String
  name : String
  price : String
  category : String
  subcategory : String
  image : String
  inStock : Bool
  featured : Bool
deriving DecidableEq, Repr

/-- The product grid renders `products?.slice(0, 240)`. -/
def renderedProducts (products : List Product) : List Product :=
  products.take 240

/-- The count line renders `Math.min(products?.length || 0, 240)`. -/
def displayedCount (products : List Product) : Nat :=
  min products.length 240

/-- Modelled from the spec: the pricing calculator lives in the cart context
(`useCart`), which is not part of the repository snapshot.  Per §4.3,
`subtotal = Σ(unitPrice_i × qty_i)` over all cart lines. -/
def subtotal (itemsList : List CartItem) : ℚ :=
  (itemsList.map (fun it => it.price * (it.quantity : ℚ))).sum

/-- Modelled from the spec: `deliveryCharge = deliveryOption?.price ?? 0`. -/
def deliveryCharge (s : CheckoutState) : ℚ :=
  match s.deliveryOption with
  | some d => d.price
  | none => 0

/-- Modelled from the spec:
`discountAmount = appliedCoupon?.discountAmount ?? 0`. -/
def discountAmount (s : CheckoutState) : ℚ :=
  match s.appliedCoupon with
  | some c => c.discountAmount
  | none => 0

/-- Modelled from the spec: `finalAmount = max(0, subtotal + deliveryCharge
+ paymentCharge - discountAmount)`; the payment surcharge is
method-specific and passed in. -/
def finalAmount (paymentCharge : ℚ) (s : CheckoutState) : ℚ :=
  max 0 (subtotal s.items + deliveryCharge s + paymentCharge - discountAmount s)

/-- The step-navigation operations of the checkout state machine, for
properties quantified over operation sequences. -/
inductive StepOp where
  | next
  | back
  | complete (step : CheckoutStep)
  | edit (sec : EditSection)
deriving DecidableEq, Repr

/-- Run one step-navigation operation. -/
def runOp (op : StepOp) (s : CheckoutState) : CheckoutState :=
  match op with
  | StepOp.next => handleNext s
  | StepOp.back => handleBack s
  | StepOp.complete step => handleStepComplete step s
  | StepOp.edit sec => handleEditSection sec s

/-- Run a sequence of step-navigation operations, first to last. -/
def runOps (ops : List StepOp) (s : CheckoutState) : CheckoutState :=
  ops.foldl (fun st op => runOp op st) s

/-- Where `advance()` lands, as the spec's amended description: the next step
in sequence, with `review` a fixed point. -/
def advanceStepSpec : CheckoutStep → CheckoutStep
  | CheckoutStep.cart => CheckoutStep.shipping
  | CheckoutStep.shipping => CheckoutStep.payment
  | CheckoutStep.payment => CheckoutStep.review
  | CheckoutStep.review => CheckoutStep.review

/-- Where `retreat()` lands, as the spec describes it: the immediately
preceding step, with `cart` a fixed point. -/
def retreatStepSpec : CheckoutStep → CheckoutStep
  | CheckoutStep.cart => CheckoutStep.cart
  | CheckoutStep.shipping => CheckoutStep.cart
  | CheckoutStep.payment => CheckoutStep.shipping
  | CheckoutStep.review => CheckoutStep.payment

/-- Prop-level restatement of the `canProceed` gating predicate, following
the spec's per-step description (§4.4), to be compared with the source's
`canProceed`. -/
def canProceedSpec (validatePaymentData : PaymentData → Bool) (s : CheckoutState) : Prop :=
  match s.currentStep with
  | CheckoutStep.cart => 0 < s.items.length
  | CheckoutStep.shipping =>
      s.shippingAddress.isSome = true ∧ s.deliveryOption.isSome = true
  | CheckoutStep.payment => validatePaymentData s.paymentData = true
  | CheckoutStep.review => True

/-- A fresh checkout session: empty cart, no selections, step `cart`,
no completed steps (the `useState` initial values). -/
def initialCheckout : CheckoutState :=
  { items := [],
    shippingAddress := none,
    deliveryOption := none,
    paymentData := { selectedMethod := "" },
    appliedCoupon := none,
    currentStep := CheckoutStep.cart,
    completedSteps := [] }

/-- A session at the review step with one line item (2 × ₹1000), a free
delivery option and a ₹500 coupon applied. -/
def couponCheckout : CheckoutState :=
  { items := [{ id := "itemA", name := "Bouquet", price := 1000, quantity := 2 }],
    shippingAddress := none,
    deliveryOption := some { id := "free", name := "Free Delivery", price := 0,
                             estimatedDays := some 3 },
    paymentData := { selectedMethod := "cod" },
    appliedCoupon := some { code := "SAVE500", discountAmount := 500 },
    currentStep := CheckoutStep.review,
    completedSteps := [CheckoutStep.cart, CheckoutStep.shipping, CheckoutStep.payment] }

/-- A component session at the review step, before placing the order. -/
def reviewSession : Session :=
  { checkout := couponCheckout, location := "/checkout", isPlacingOrder := false }

/- Helper lemmas about the step handlers. -/

theorem handleStepComplete_completedSteps (step : CheckoutStep) (s : CheckoutState) :
    (handleStepComplete step s).completedSteps =
      (if s.completedSteps.contains step then s.completedSteps
       else s.completedSteps ++ [step]) := by
  by_cases h : step ∈ s.completedSteps
  · simp [handleStepComplete, h]
  · simp [handleStepComplete, h]

theorem handleStepComplete_frame (step : CheckoutStep) (s : CheckoutState) :
    (handleStepComplete step s).items = s.items ∧
    (handleStepComplete step s).shippingAddress = s.shippingAddress ∧
    (handleStepComplete step s).deliveryOption = s.deliveryOption ∧
    (handleStepComplete step s).paymentData = s.paymentData ∧
    (handleStepComplete step s).appliedCoupon = s.appliedCoupon ∧
    (handleStepComplete step s).currentStep = s.currentStep := by
  by_cases h : step ∈ s.completedSteps
  · simp [handleStepComplete, h]
  · simp [handleStepComplete, h]

theorem handleNext_completedSteps (s : CheckoutState) :
    (handleNext s).completedSteps = (handleStepComplete s.currentStep s).completedSteps := by
  obtain ⟨it, sa, dv, pd, ac, cur, comp⟩ := s
  cases cur <;> rfl

theorem handleNext_currentStep (s : CheckoutState) :
    (handleNext s).currentStep = advanceStepSpec s.currentStep := by
  obtain ⟨it, sa, dv, pd, ac, cur, comp⟩ := s
  cases cur
  · rfl
  · rfl
  · rfl
  · exact (handleStepComplete_frame _ _).2.2.2.2.2

theorem handleBack_completedSteps (s : CheckoutState) :
    (handleBack s).completedSteps = s.completedSteps := by
  obtain ⟨it, sa, dv, pd, ac, cur, comp⟩ := s
  cases cur <;> rfl

theorem handleStepComplete_nodup (step : CheckoutStep) (s : CheckoutState)
    (h : s.completedSteps.Nodup) :
    (handleStepComplete step s).completedSteps.Nodup := by
  by_cases hm : step ∈ s.completedSteps
  · simpa [handleStepComplete, hm] using h
  · rw [handleStepComplete_completedSteps]
    have hc : s.completedSteps.contains step = false := by simpa using hm
    rw [hc]
    simp only [Bool.false_eq_true, if_false]
    refine List.nodup_append.mpr ⟨h, List.nodup_singleton step, ?_⟩
    intro a ha hb
    rw [List.mem_singleton] at hb
    subst hb
    exact hm ha

theorem runOp_nodup (op : StepOp) (s : CheckoutState)
    (h : s.completedSteps.Nodup) : (runOp op s).completedSteps.Nodup := by
  cases op with
  | next =>
      show (handleNext s).completedSteps.Nodup
      rw [handleNext_completedSteps]
      exact handleStepComplete_nodup s.currentStep s h
  | back =>
      show (handleBack s).completedSteps.Nodup
      rw [handleBack_completedSteps]
      exact h
  | complete step => exact handleStepComplete_nodup step s h
  | edit sec => exact h

theorem handleNext_frame (s : CheckoutState) :
    (handleNext s).items = s.items ∧
    (handleNext s).shippingAddress = s.shippingAddress ∧
    (handleNext s).deliveryOption = s.deliveryOption ∧
    (handleNext s).paymentData = s.paymentData ∧
    (handleNext s).appliedCoupon = s.appliedCoupon := by
  obtain ⟨it, sa, dv, pd, ac, cur, comp⟩ := s
  have hf := handleStepComplete_frame cur ⟨it, sa, dv, pd, ac, cur, comp⟩
  cases cur <;> exact ⟨hf.1, hf.2.1, hf.2.2.1, hf.2.2.2.1, hf.2.2.2.2.1⟩

/-- C1 (counterexample): in the fresh session the cart is empty, so
`canProceed` is false at step `cart`, yet `handleNext` still moves
`currentStep` to `shipping`.  Invoked directly, the handler performs no
gating of its own; only the UI button is disabled. -/
theorem c1_advance_ignores_gating_cex :
    canProceed (fun _ => false) initialCheckout = false ∧
    initialCheckout.currentStep = CheckoutStep.cart ∧
    (handleNext initialCheckout).currentStep = CheckoutStep.shipping :=
  ⟨rfl, rfl, rfl⟩

/-- C1 (amended): `handleNext` marks the current step complete and moves to
the next step in sequence unconditionally whenever the current step is not
the last (`review`, a fixed point); it consults `canProceed` nowhere —
gating exists only in the UI, which disables the button — and it changes no
other state. -/
theorem c1_advance_unconditional (s : CheckoutState) :
    (handleNext s).currentStep = advanceStepSpec s.currentStep ∧
    (handleNext s).completedSteps =
      (if s.completedSteps.contains s.currentStep then s.completedSteps
       else s.completedSteps ++ [s.currentStep]) ∧
    (handleNext s).items = s.items ∧
    (handleNext s).shippingAddress = s.shippingAddress ∧
    (handleNext s).deliveryOption = s.deliveryOption ∧
    (handleNext s).paymentData = s.paymentData ∧
    (handleNext s).appliedCoupon = s.appliedCoupon := by
  have hf := handleNext_frame s
  refine ⟨handleNext_currentStep s, ?_, hf.1, hf.2.1, hf.2.2.1, hf.2.2.2.1, hf.2.2.2.2⟩
  rw [handleNext_completedSteps, handleStepComplete_completedSteps]

/-- C2: the derived final total is `max 0 (subtotal + deliveryCharge +
paymentCharge - discountAmount)`, with `subtotal` the sum of unit price times
quantity over the cart lines, `deliveryCharge` the selected option's price or
0 when none is selected, `discountAmount` the applied coupon's discount or 0;
in particular the final total is never negative. -/
theorem c2_finalAmount_formula (paymentCharge : ℚ) (s : CheckoutState) :
    finalAmount paymentCharge s =
      max 0 (subtotal s.items + deliveryCharge s + paymentCharge - discountAmount s) ∧
    0 ≤ finalAmount paymentCharge s ∧
    subtotal s.items = (s.items.map (fun it => it.price * (it.quantity : ℚ))).sum ∧
    (s.deliveryOption = none → deliveryCharge s = 0) ∧
    (∀ d : DeliveryOption, s.deliveryOption = some d → deliveryCharge s = d.price) ∧
    (s.appliedCoupon = none → discountAmount s = 0) ∧
    (∀ c : Coupon, s.appliedCoupon = some c → discountAmount s = c.discountAmount) := by
  refine ⟨rfl, le_max_left _ _, rfl, ?_, ?_, ?_, ?_⟩
  · intro h; simp [deliveryCharge, h]
  · intro d h; simp [deliveryCharge, h]
  · intro h; simp [discountAmount, h]
  · intro c h; simp [discountAmount, h]

theorem c2_finalAmount_formula_witness :
    finalAmount 0 couponCheckout = 1500 ∧
    deliveryCharge initialCheckout = 0 ∧
    discountAmount initialCheckout = 0 ∧
    deliveryCharge couponCheckout = 0 ∧
    discountAmount couponCheckout = 500 := by
  refine ⟨?_,
    (c2_finalAmount_formula 0 initialCheckout).2.2.2.1 rfl,
    (c2_finalAmount_formula 0 initialCheckout).2.2.2.2.2.1 rfl,
    (c2_finalAmount_formula 0 couponCheckout).2.2.2.2.1 _ rfl,
    (c2_finalAmount_formula 0 couponCheckout).2.2.2.2.2.2 _ rfl⟩
  rw [(c2_finalAmount_formula 0 couponCheckout).1]
  norm_num [subtotal, deliveryCharge, discountAmount, couponCheckout]

/-- C3: `canProceed` holds exactly per step as specified — at `cart` iff the
cart has at least one item, at `shipping` iff an address and a delivery
option are selected, at `payment` iff the payment data passes the
method-specific validity predicate, at `review` always. -/
theorem c3_canProceed_characterisation (validate : PaymentData → Bool) (s : CheckoutState) :
    canProceed validate s = true ↔ canProceedSpec validate s := by
  obtain ⟨it, sa, dv, pd, ac, cur, comp⟩ := s
  cases cur <;> simp [canProceed, canProceedSpec]

theorem c3_canProceed_characterisation_witness :
    (canProceed (fun _ => true) initialCheckout = true ↔
      canProceedSpec (fun _ => true) initialCheckout) ∧
    ¬ canProceedSpec (fun _ => true) initialCheckout :=
  ⟨c3_canProceed_characterisation (fun _ => true) initialCheckout, by
    intro h
    simp [canProceedSpec, initialCheckout] at h⟩

/-- C4: `handleBack` moves `currentStep` to the immediately preceding step
(`cart` is a fixed point) with no gating, and changes nothing else — in
particular `completedSteps` is exactly the set from before. -/
theorem c4_retreat_prev_keeps_completed (s : CheckoutState) :
    (handleBack s).currentStep = retreatStepSpec s.currentStep ∧
    (handleBack s).completedSteps = s.completedSteps ∧
    (handleBack s).items = s.items ∧
    (handleBack s).shippingAddress = s.shippingAddress ∧
    (handleBack s).deliveryOption = s.deliveryOption ∧
    (handleBack s).paymentData = s.paymentData ∧
    (handleBack s).appliedCoupon = s.appliedCoupon := by
  obtain ⟨it, sa, dv, pd, ac, cur, comp⟩ := s
  cases cur <;> exact ⟨rfl, rfl, rfl, rfl, rfl, rfl, rfl⟩

/-- C5: `handleQuantityChange` with a new quantity strictly below 1 returns
before calling the cart context's `updateQuantity`, leaving the cart
completely unchanged — a no-op, not a removal. -/
theorem c5_quantity_below_one_noop
    (updateQuantity : String → Int → List CartItem → List CartItem)
    (productId : String) (newQuantity : Int) (itemsList : List CartItem)
    (h : newQuantity < 1) :
    handleQuantityChange updateQuantity productId newQuantity itemsList = itemsList := by
  simp [handleQuantityChange, h]

theorem c5_quantity_below_one_noop_witness :
    handleQuantityChange (fun _ _ _ => []) "itemA" 0
      [{ id := "itemA", name := "Bouquet", price := 1000, quantity := 2 }] =
      [{ id := "itemA", name := "Bouquet", price := 1000, quantity := 2 }] :=
  c5_quantity_below_one_noop (fun _ _ _ => []) "itemA" 0
    [{ id := "itemA", name := "Bouquet", price := 1000, quantity := 2 }] (by decide)

/-- C6: when the order placement fails — the collaborator returns an
unsuccessful result (or one without an order payload) or throws — the whole
checkout state (cart items, shipping address, delivery option, payment data,
applied coupon, `currentStep`, `completedSteps`) is exactly as before the
call; in particular if the session was at `review` it stays at `review`,
permitting retry. -/
theorem c6_placeOrder_failure_preserves_state
    (result : Except String OrderResponse) (s : Session)
    (h : orderFailed result = true) :
    (handlePlaceOrder result s).checkout = s.checkout ∧
    (handlePlaceOrder result s).checkout.currentStep = s.checkout.currentStep ∧
    (s.checkout.currentStep = CheckoutStep.review →
      (handlePlaceOrder result s).checkout.currentStep = CheckoutStep.review) := by
  have hmain : (handlePlaceOrder result s).checkout = s.checkout := by
    cases result with
    | error e => rfl
    | ok r =>
        cases ho : r.order with
        | none => simp [handlePlaceOrder, ho]
        | some o =>
            have hs : r.success = false := by
              simp [orderFailed, ho] at h
              exact h
            simp [handlePlaceOrder, ho, hs]
  refine ⟨hmain, by rw [hmain], fun hr => by rw [hmain]; exact hr⟩

theorem c6_placeOrder_failure_preserves_state_witness :
    (handlePlaceOrder
        (Except.ok { success := false, error := some "Payment failed", order := none })
        reviewSession).checkout = reviewSession.checkout ∧
    (handlePlaceOrder
        (Except.ok { success := false, error := some "Payment failed", order := none })
        reviewSession).checkout.currentStep = CheckoutStep.review :=
  ⟨(c6_placeOrder_failure_preserves_state
      (Except.ok { success := false, error := some "Payment failed", order := none })
      reviewSession (by decide)).1,
   (c6_placeOrder_failure_preserves_state
      (Except.ok { success := false, error := some "Payment failed", order := none })
      reviewSession (by decide)).2.2 rfl⟩

/-- C7: the address form's postal-code rule accepts a code exactly when it is
a string of exactly 6 characters that appears in the fixed Bangalore pin-code
allow-list; in particular "560099" fails and "560034" passes. -/
theorem c7_postalCode_allowlist :
    (∀ code : String, postalCodeValid code = true ↔
        (code.length = 6 ∧ code ∈ ALLOWED_PIN_CODES)) ∧
    postalCodeValid "560099" = false ∧
    postalCodeValid "560034" = true := by
  refine ⟨?_, by decide, by decide⟩
  intro code
  constructor
  · intro h
    simp only [postalCodeValid, Bool.and_eq_true, decide_eq_true_eq] at h
    obtain ⟨⟨h1, h2⟩, h3⟩ := h
    exact ⟨le_antisymm h2 h1, by simpa using h3⟩
  · rintro ⟨h1, h2⟩
    simp [postalCodeValid, h1, h2]

/-- C8: from the review screen, each edit action jumps `currentStep` directly
to its step — `cart` to `cart`, `address` and `delivery` to `shipping`,
`payment` to `payment` — unconditionally, with no validation and no change to
any other state. -/
theorem c8_edit_jumps_directly (s : CheckoutState) :
    (handleEditSection EditSection.cart s).currentStep = CheckoutStep.cart ∧
    (handleEditSection EditSection.address s).currentStep = CheckoutStep.shipping ∧
    (handleEditSection EditSection.delivery s).currentStep = CheckoutStep.shipping ∧
    (handleEditSection EditSection.payment s).currentStep = CheckoutStep.payment ∧
    ∀ sec : EditSection,
      (handleEditSection sec s).items = s.items ∧
      (handleEditSection sec s).shippingAddress = s.shippingAddress ∧
      (handleEditSection sec s).deliveryOption = s.deliveryOption ∧
      (handleEditSection sec s).paymentData = s.paymentData ∧
      (handleEditSection sec s).appliedCoupon = s.appliedCoupon ∧
      (handleEditSection sec s).completedSteps = s.completedSteps :=
  ⟨rfl, rfl, rfl, rfl, fun _ => ⟨rfl, rfl, rfl, rfl, rfl, rfl⟩⟩

/-- C9: marking a step complete is an idempotent insert — from any state with
duplicate-free `completedSteps`, every sequence of step-machine operations
keeps `completedSteps` duplicate-free, and marking an already-completed step
complete leaves the state (hence `completedSteps`) unchanged. -/
theorem c9_completed_nodup_idempotent :
    (∀ (ops : List StepOp) (s : CheckoutState), s.completedSteps.Nodup →
        (runOps ops s).completedSteps.Nodup) ∧
    (∀ (step : CheckoutStep) (s : CheckoutState), step ∈ s.completedSteps →
        handleStepComplete step s = s) := by
  constructor
  · intro ops
    induction ops with
    | nil => intro s h; exact h
    | cons op rest ih =>
        intro s h
        exact ih (runOp op s) (runOp_nodup op s h)
  · intro step s hmem
    simp [handleStepComplete, hmem]

theorem c9_completed_nodup_idempotent_witness :
    (runOps [StepOp.next, StepOp.next, StepOp.back, StepOp.next]
        initialCheckout).completedSteps.Nodup ∧
    handleStepComplete CheckoutStep.cart couponCheckout = couponCheckout :=
  ⟨c9_completed_nodup_idempotent.1
      [StepOp.next, StepOp.next, StepOp.back, StepOp.next] initialCheckout (by decide),
   c9_completed_nodup_idempotent.2 CheckoutStep.cart couponCheckout (by decide)⟩

/-- C10: the product grid renders at most the first 240 products of the
filtered result list, and the "Showing N products" count equals the minimum
of the number of filtered products and 240 — which is exactly the number of
rendered products. -/
theorem c10_products_capped_at_240 (products : List Product) :
    renderedProducts products = products.take 240 ∧
    (renderedProducts products).length = min products.length 240 ∧
    (renderedProducts products).length ≤ 240 ∧
    displayedCount products = (renderedProducts products).length := by
  refine ⟨rfl, ?_, ?_, ?_⟩
  · simp [renderedProducts, List.length_take, Nat.min_comm]
  · simp only [renderedProducts, List.length_take]
    omega
  · simp [displayedCount, renderedProducts, List.length_take, Nat.min_comm]
